import Mathlib

/-!
Verification development for the supervised network-service worker
implemented in `src/app.js` (classes `httpApiWorker` and `Worker`).

The embedding below translates, from the source:

* the response classification tags used by `res.sendJson` calls
  (`SERVER_TIMEOUT`, `INVALID_REQUEST`, `NOT_FOUND`);
* the request-timeout middleware (`app.js` lines 58-80) as a write-trace
  function over the per-request events it reacts to;
* the Express middleware/route pipeline assembled by `runExpressServer`
  (registration order: helmet stages, timeout middleware, body parsers,
  the JSON syntax-error middleware, cors, the external auth and route
  collaborators, and the final catch-all NOT_FOUND responder), with the
  standard Express dispatch discipline: handlers run in registration
  order, a raised error skips normal handlers until the next
  error-handling middleware, and a sent response stops dispatch;
* the process topology and shutdown machinery of `runExpressServer`
  (cluster fork loop, `stopGraceFully`, the SIGINT/SIGTERM/
  `uncaughtException` handlers, the `server.close` callback that closes
  the store and calls `process.exit`);
* `startServer` (store init gate) and the health-probe loop of
  `Worker.start` (`setInterval` every `POLL_INTERVAL`, cleared by a
  `setTimeout` after `pollingDuration`).
-/

namespace App

/-- Response classification tags (`__constants.RESPONSE_MESSAGES.*` as used
by `app.js`); `BUSINESS` stands for any response produced by an external
business route. -/
inductive RespType
  | SERVER_TIMEOUT
  | INVALID_REQUEST
  | NOT_FOUND
  | BUSINESS (tag : Nat)
deriving DecidableEq

/-- A structured response body as written by `res.sendJson`: a `type`
classification and a human-readable message. -/
structure Resp where
  rtype : RespType
  msg : String
deriving DecidableEq

/-- Response sent by the timeout middleware when it observes
`req.timedout` at entry (`app.js` line 62). -/
def serverTimeoutEntryResp : Resp :=
  ⟨RespType.SERVER_TIMEOUT, "request from client timedout"⟩

/-- Response sent by the per-request timeout-event listener
(`app.js` line 73), carrying the elapsed time in its message. -/
def serverTimeoutEventResp (time : Nat) : Resp :=
  ⟨RespType.SERVER_TIMEOUT, "server timed out after " ++ toString time ++ " milliseconds"⟩

/-- Response sent by the JSON syntax-error middleware (`app.js` line 98). -/
def invalidRequestResp : Resp :=
  ⟨RespType.INVALID_REQUEST, "invalid request"⟩

/-- Response sent by the catch-all middleware (`app.js` line 115). -/
def notFoundResp : Resp :=
  ⟨RespType.NOT_FOUND, "not found"⟩

/-! ## Request-timeout middleware as a per-request write trace

The middleware at `app.js` lines 58-80 does two things: at entry it
checks `req.timedout` (sending a `SERVER_TIMEOUT` response instead of
calling `next()` when set), and it registers a listener on the request's
`timeout` event whose body unconditionally writes a `SERVER_TIMEOUT`
response.  Nothing in the middleware suppresses writes made to the same
request context after a response: a late write by the downstream handler,
or a second timeout event, each produce a further write. -/

/-- Events observable on one request context after the middleware ran:
a firing of the timeout event (with the elapsed time the listener reports)
or a write attempted by the downstream handler pipeline. -/
inductive ReqEvent
  | timeoutFired (time : Nat)
  | handlerWrite (r : Resp)
deriving DecidableEq

/-- Writes produced on the request context by the registered timeout
listener and the downstream handler: the listener answers every timeout
event with a `SERVER_TIMEOUT` response, and handler writes pass through
unimpeded (the middleware installs no suppression). -/
def timeoutListenerWrites : List ReqEvent → List Resp
  | [] => []
  | ReqEvent.timeoutFired t :: es => serverTimeoutEventResp t :: timeoutListenerWrites es
  | ReqEvent.handlerWrite r :: es => r :: timeoutListenerWrites es

/-- Total writes on one request context: the entry check of the middleware
(`if (!req.timedout) next() else res.sendJson(SERVER_TIMEOUT)`) followed by
the writes of the timeout listener and of the downstream pipeline. -/
def timeoutMiddlewareWrites (timedoutAtEntry : Bool) (events : List ReqEvent) : List Resp :=
  if !timedoutAtEntry then timeoutListenerWrites events
  else serverTimeoutEntryResp :: timeoutListenerWrites events

/-- Number of `SERVER_TIMEOUT`-classified writes in a write trace. -/
def countServerTimeout (ws : List Resp) : Nat :=
  ws.countP (fun w => w.rtype == RespType.SERVER_TIMEOUT)

/-- Number of timeout events fired on one request context. -/
def countTimeoutEvents (es : List ReqEvent) : Nat :=
  es.countP (fun e => match e with | ReqEvent.timeoutFired _ => true | _ => false)

/-- Whether an event is a downstream-handler write that is itself
`SERVER_TIMEOUT`-classified (business handlers do not produce these). -/
def isStHandlerWrite : ReqEvent → Bool
  | ReqEvent.handlerWrite r => r.rtype == RespType.SERVER_TIMEOUT
  | _ => false

/-! ## Process topology and shutdown machinery

`runExpressServer` (`app.js` lines 35-171) decides the process topology:
if `cluster.isMaster && numCPUs > 0` it runs the fork loop and does not
assign `vm.app.server`; otherwise it creates and binds the HTTP server.
Independently of that branch it registers the SIGINT, SIGTERM and
`uncaughtException` handlers.  `stopGraceFully` (lines 141-148) calls
`vm.app.server.close` with a callback that awaits `__db.close()` and then
calls `process.exit(error ? 1 : 0)`, where `error` is the argument the
listener-close machinery passes to the callback.  There is no guard
against running `stopGraceFully` twice: each invocation calls
`server.close` again and registers one more close callback.  When the
listener finishes closing, Node runs every registered callback on the
close event in registration order; each callback invokes `__db.close()`
before any of them reaches `process.exit` (the `await` suspends the
callback after starting the store close).  If `__db.close()` rejects, the
`await` throws out of the callback and `process.exit` is never reached on
that callback. -/

/-- Observable per-process state of the embedded `runExpressServer`
machinery. -/
structure ProcSt where
  /-- Children created by the `cluster.fork()` loop. -/
  forkedChildren : Nat
  /-- Whether `vm.app.server` was assigned (the listener-binding branch ran). -/
  serverBound : Bool
  /-- Whether the SIGINT/SIGTERM handlers were registered. -/
  sigHandlersRegistered : Bool
  /-- Number of `vm.app.server.close(...)` invocations. -/
  serverCloseCalls : Nat
  /-- Close callbacks registered and still waiting for the close event. -/
  pendingCloseCallbacks : Nat
  /-- Number of `__db.close()` invocations. -/
  dbCloseCalls : Nat
  /-- `some code` once `process.exit(code)` ran. -/
  exitedWith : Option Nat
  /-- Entries written by the `uncaughtException` handler. -/
  crashLogs : Nat
  /-- Whether an exception escaped a signal handler (e.g. `close` called on
  an undefined `vm.app.server`). -/
  faulted : Bool
deriving DecidableEq

/-- State left by `runExpressServer` (`app.js` lines 123-157): the fork
loop runs `numCPUs` times when `cluster.isMaster && numCPUs > 0`, the
listener is bound exactly in the other branch, and the termination-signal
handlers are registered unconditionally. -/
def runExpressServer (isMaster : Bool) (numCPUs : Nat) : ProcSt :=
  { forkedChildren := if isMaster && decide (0 < numCPUs) then numCPUs else 0
    serverBound := !(isMaster && decide (0 < numCPUs))
    sigHandlersRegistered := true
    serverCloseCalls := 0
    pendingCloseCallbacks := 0
    dbCloseCalls := 0
    exitedWith := none
    crashLogs := 0
    faulted := false }

/-- `stopGraceFully` (`app.js` lines 141-148): unconditionally calls
`vm.app.server.close`, registering one more close callback.  When the
server was never bound (`vm.app.server` is undefined), the property access
throws a TypeError which escapes the signal handler and is logged by the
`uncaughtException` handler. -/
def stopGraceFully (s : ProcSt) : ProcSt :=
  if s.serverBound then
    { s with serverCloseCalls := s.serverCloseCalls + 1
             pendingCloseCallbacks := s.pendingCloseCallbacks + 1 }
  else
    { s with faulted := true, crashLogs := s.crashLogs + 1 }

/-- The SIGINT/SIGTERM handlers (`app.js` lines 150-157): log and call
`stopGraceFully`.  Signals delivered after `process.exit` have no effect
because the process is gone. -/
def onTermSignal (s : ProcSt) : ProcSt :=
  if s.exitedWith.isSome then s else stopGraceFully s

/-- The listener's close event: every registered close callback runs.
Each one invokes `__db.close()` (all invocations happen before the first
`process.exit`, because each callback suspends at `await __db.close()`
right after starting it).  If the store close resolves, the first callback
resumes and calls `process.exit(error ? 1 : 0)` with its listener-close
`error`; if the store close rejects, the `await` throws and `process.exit`
is never reached. -/
def fireCloseEvent (closeErr : Bool) (storeCloseOk : Bool) (s : ProcSt) : ProcSt :=
  if s.pendingCloseCallbacks = 0 then s
  else
    { s with dbCloseCalls := s.dbCloseCalls + s.pendingCloseCallbacks
             pendingCloseCallbacks := 0
             exitedWith := if storeCloseOk then some (if closeErr then 1 else 0)
                           else s.exitedWith }

/-- The `uncaughtException` handler (`app.js` lines 158-164): its body
only logs the fault; it neither closes the listener nor exits. -/
def onUncaughtException (s : ProcSt) : ProcSt :=
  { s with crashLogs := s.crashLogs + 1 }

/-- Events delivered to a running process. -/
inductive PEvent
  | sigint
  | sigterm
  | closeCompleted (closeErr : Bool) (storeCloseOk : Bool)
  | uncaught
deriving DecidableEq

/-- One event step of the process.  SIGINT and SIGTERM run the identical
handler; the close event runs the registered callbacks; an uncaught fault
runs the `uncaughtException` handler.  An exited process reacts to
nothing. -/
def step (s : ProcSt) (e : PEvent) : ProcSt :=
  if s.exitedWith.isSome then s
  else
    match e with
    | PEvent.sigint => stopGraceFully s
    | PEvent.sigterm => stopGraceFully s
    | PEvent.closeCompleted ce so => fireCloseEvent ce so s
    | PEvent.uncaught => onUncaughtException s

/-- A run of the process over a list of delivered events. -/
def run (s : ProcSt) (es : List PEvent) : ProcSt :=
  es.foldl step s

/-- Outcome of `startServer`. -/
inductive StartOutcome
  | exited (code : Nat)
  | serving (s : ProcSt)
deriving DecidableEq

/-- `startServer` (`app.js` lines 21-33): awaits `__db.init()` exactly
once; on success it runs `runExpressServer`, on failure it logs and calls
`process.exit(1)` without any retry. -/
def startServer (dbInit : Except String Unit) (isMaster : Bool) (numCPUs : Nat) :
    StartOutcome :=
  match dbInit with
  | Except.error _ => StartOutcome.exited 1
  | Except.ok _ => StartOutcome.serving (runExpressServer isMaster numCPUs)

/-! ## The Express middleware/route pipeline

`runExpressServer` registers, in this order: three helmet stages, the
timeout middleware, `bodyParser.json`, `bodyParser.urlencoded`, the JSON
syntax-error middleware (a four-argument error handler), cors, the
external auth collaborator, the external route table, and finally the
catch-all NOT_FOUND responder (`app.js` lines 39-122).  Express dispatch
runs handlers in registration order; a handler may call `next()`, send a
response (which ends dispatch), or raise an error; a raised error skips
normal handlers until the next error-handling middleware, which may
handle it or pass control on. -/

/-- An inbound request as the registered middleware observes it:
whether `req.timedout` is set when the timeout middleware runs, whether
the JSON body is malformed, and the request path. -/
structure Request where
  timedout : Bool
  malformedJson : Bool
  path : String
deriving DecidableEq

/-- The shape of a raised JavaScript error, as tested by the JSON
syntax-error middleware (`err instanceof SyntaxError && err.status === 400
&& 'body' in err`). -/
structure JsError where
  isSyntaxError : Bool
  status : Nat
  hasBody : Bool
deriving DecidableEq

/-- What one handler invocation does with the request. -/
inductive StageResult
  | next
  | send (r : Resp)
  | raise (e : JsError)
deriving DecidableEq

/-- A registered handler: a normal middleware/route, or a four-argument
error-handling middleware. -/
inductive HandlerFun
  | normal (f : Request → StageResult)
  | errorH (f : JsError → Request → StageResult)

/-- A pipeline entry; `isRoute` marks entries of the external business
route table. -/
structure Handler where
  isRoute : Bool
  hrun : HandlerFun

/-- The three helmet stages (`helmet()`, `helmet.hsts`,
`helmet.frameguard`): header configuration only, always `next()`. -/
def helmetStage : Request → StageResult := fun _ => StageResult.next

/-- The timeout middleware's entry check (`app.js` lines 58-68):
`if (!req.timedout) next() else res.sendJson(SERVER_TIMEOUT)`.
(Its timeout-event listener is modelled by `timeoutListenerWrites`.) -/
def haltOnTimedoutStage : Request → StageResult := fun req =>
  if !req.timedout then StageResult.next else StageResult.send serverTimeoutEntryResp

/-- `bodyParser.json` (`app.js` lines 81-85): on a malformed JSON body it
raises a `SyntaxError` with `status` 400 and a `body` property (the
documented body-parser failure mode); otherwise it passes through. -/
def bodyParserJsonStage : Request → StageResult := fun req =>
  if req.malformedJson then StageResult.raise ⟨true, 400, true⟩ else StageResult.next

/-- `bodyParser.urlencoded` (`app.js` lines 86-92): passes through for the
requests modelled here. -/
def bodyParserUrlencodedStage : Request → StageResult := fun _ => StageResult.next

/-- The JSON syntax-error middleware (`app.js` lines 93-104): sends
`INVALID_REQUEST` when the error matches a JSON parsing failure, else
passes control on. -/
def jsonSyntaxErrorStage : JsError → Request → StageResult := fun err _ =>
  if err.isSyntaxError && (err.status == 400) && err.hasBody then
    StageResult.send invalidRequestResp
  else StageResult.next

/-- The cors middleware (`app.js` lines 105-109): header configuration
only, always `next()`. -/
def corsStage : Request → StageResult := fun _ => StageResult.next

/-- The catch-all middleware (`app.js` lines 113-122): always sends the
`NOT_FOUND` response, never calls `next()`. -/
def notFoundStage : Request → StageResult := fun _ => StageResult.send notFoundResp

/-- Wrap a middleware function as a non-route pipeline entry. -/
def mkMw (f : Request → StageResult) : Handler := ⟨false, HandlerFun.normal f⟩

/-- Wrap a business-route function as a route pipeline entry. -/
def mkRoute (f : Request → StageResult) : Handler := ⟨true, HandlerFun.normal f⟩

/-- The fixed middleware registered before the external collaborators, in
source order (`app.js` lines 39-104 plus cors at 105). -/
def frontStages : List Handler :=
  [mkMw helmetStage, mkMw helmetStage, mkMw helmetStage,
   mkMw haltOnTimedoutStage, mkMw bodyParserJsonStage, mkMw bodyParserUrlencodedStage,
   ⟨false, HandlerFun.errorH jsonSyntaxErrorStage⟩, mkMw corsStage]

/-- The full pipeline assembled by `runExpressServer`, parametric in the
external auth collaborator (`authMiddleware.initialize`, `app.js` line
110) and the external route table (`require('./routes')`, line 111); the
catch-all is registered last (line 113). -/
def appPipeline (auth routes : List (Request → StageResult)) : List Handler :=
  frontStages ++ auth.map mkMw ++ routes.map mkRoute ++ [mkMw notFoundStage]

/-- Express dispatch over a pipeline: returns the list of responses
written for the request and the number of business-route entries whose
handler function was invoked.  In normal mode error handlers are skipped;
in error mode normal handlers are skipped and the next error handler
receives the error (calling `next()` there resumes normal mode). -/
def dispatch : List Handler → Option JsError → Request → List Resp × Nat
  | [], _, _ => ([], 0)
  | h :: rest, none, req =>
    match h.hrun with
    | HandlerFun.errorH _ => dispatch rest none req
    | HandlerFun.normal f =>
      match f req with
      | StageResult.next =>
          ((dispatch rest none req).1,
           (if h.isRoute then 1 else 0) + (dispatch rest none req).2)
      | StageResult.send r => ([r], if h.isRoute then 1 else 0)
      | StageResult.raise e =>
          ((dispatch rest (some e) req).1,
           (if h.isRoute then 1 else 0) + (dispatch rest (some e) req).2)
  | h :: rest, some e, req =>
    match h.hrun with
    | HandlerFun.normal _ => dispatch rest (some e) req
    | HandlerFun.errorH f =>
      match f e req with
      | StageResult.next => dispatch rest none req
      | StageResult.send r => ([r], 0)
      | StageResult.raise e2 => dispatch rest (some e2) req

/-! ## Health-probe loop

`Worker.start` (`app.js` lines 183-208) starts a `setInterval` with
period `POLL_INTERVAL` whose tick invokes `internalHealthCheck()` with a
`.catch` that only logs, and a `setTimeout` that clears the interval
after `pollingDuration`.  The interval therefore ticks at the times
`k * POLL_INTERVAL` for `1 ≤ k` with `k * POLL_INTERVAL ≤
pollingDuration`, and never after the window expires. -/

/-- `POLL_INTERVAL` (`app.js` line 193): 10 seconds in milliseconds. -/
def POLL_INTERVAL : Nat := 10000

/-- `pollingDuration` (`app.js` line 194): 5 minutes in milliseconds. -/
def pollingDuration : Nat := 5 * 60 * 1000

/-- The times at which the interval ticks before being cleared. -/
def probeTimes (interval window : Nat) : List Nat :=
  (List.range (window / interval)).map (fun k => (k + 1) * interval)

/-- Observable state of the probe loop. -/
structure ProbeSt where
  attempts : Nat
  failuresLogged : Nat
deriving DecidableEq

/-- One interval tick: `internalHealthCheck()` is attempted; a failure is
caught by the `.catch` handler, which logs it and nothing else. -/
def probeTick (failed : Bool) (s : ProbeSt) : ProbeSt :=
  { attempts := s.attempts + 1
    failuresLogged := s.failuresLogged + (if failed then 1 else 0) }

/-- The whole probe loop: one tick per probe time, where `fails t` tells
whether the probe issued at time `t` fails. -/
def runProbeLoop (interval window : Nat) (fails : Nat → Bool) : ProbeSt :=
  (probeTimes interval window).foldl (fun s t => probeTick (fails t) s) ⟨0, 0⟩

/-! ## Helper lemmas -/

/-- Unfolding one event of a run. -/
theorem run_cons (s : ProcSt) (e : PEvent) (es : List PEvent) :
    run s (e :: es) = run (step s e) es := rfl

/-- Delivering `k` termination signals to a live bound process: each one
runs `stopGraceFully`, so `server.close` is called `k` more times, `k`
more close callbacks are registered, and the store is not yet touched. -/
theorem run_replicate_sigint (k : Nat) :
    ∀ s : ProcSt, s.serverBound = true → s.exitedWith = none →
      (run s (List.replicate k PEvent.sigint)).serverCloseCalls = s.serverCloseCalls + k
      ∧ (run s (List.replicate k PEvent.sigint)).pendingCloseCallbacks
          = s.pendingCloseCallbacks + k
      ∧ (run s (List.replicate k PEvent.sigint)).dbCloseCalls = s.dbCloseCalls
      ∧ (run s (List.replicate k PEvent.sigint)).exitedWith = none
      ∧ (run s (List.replicate k PEvent.sigint)).serverBound = true := by
  induction k with
  | zero =>
    intro s hb hx
    simp [run, List.replicate, hx, hb]
  | succ k ih =>
    intro s hb hx
    have hstep : step s PEvent.sigint = stopGraceFully s := by
      simp [step, hx]
    have hsgf : stopGraceFully s =
        { s with serverCloseCalls := s.serverCloseCalls + 1
                 pendingCloseCallbacks := s.pendingCloseCallbacks + 1 } := by
      simp [stopGraceFully, hb]
    rw [List.replicate_succ, run_cons, hstep, hsgf]
    obtain ⟨h1, h2, h3, h4, h5⟩ :=
      ih { s with serverCloseCalls := s.serverCloseCalls + 1
                  pendingCloseCallbacks := s.pendingCloseCallbacks + 1 } hb hx
    dsimp only at h1 h2 h3
    refine ⟨?_, ?_, ?_, h4, h5⟩
    · rw [h1]; omega
    · rw [h2]; omega
    · rw [h3]

/-! ## Claims -/

/-- C1, counterexample: `stopGraceFully` has no re-entrancy guard, so in
the run of a bound worker that receives SIGINT and then SIGTERM while
draining, `server.close` is invoked twice, and when the close event fires
every registered callback invokes the store close, so `__db.close()` runs
twice — refuting "the shutdown sequence runs at most once and the
store-close operation is invoked exactly once per process". -/
theorem c1_second_signal_counterexample :
    ¬ ((run (runExpressServer false 0) [PEvent.sigint, PEvent.sigterm]).serverCloseCalls ≤ 1
       ∧ (run (runExpressServer false 0)
            [PEvent.sigint, PEvent.sigterm,
             PEvent.closeCompleted false true]).dbCloseCalls = 1) := by
  decide

/-- C1, amended: each termination signal received while the process is
still alive runs `stopGraceFully` again, so after `k` signals
`server.close` has been invoked `k` times and `k` close callbacks are
registered; when the listener's close event then fires, `__db.close()` is
invoked once per registered callback, i.e. `k` times. -/
theorem c1_signal_per_close_amended (k : Nat) (ce so : Bool) :
    (run (runExpressServer false 0) (List.replicate k PEvent.sigint)).serverCloseCalls = k
    ∧ (run (runExpressServer false 0)
        (List.replicate k PEvent.sigint)).pendingCloseCallbacks = k
    ∧ (fireCloseEvent ce so
        (run (runExpressServer false 0) (List.replicate k PEvent.sigint))).dbCloseCalls = k := by
  obtain ⟨h1, h2, h3, h4, h5⟩ :=
    run_replicate_sigint k (runExpressServer false 0) rfl rfl
  have e1 : (runExpressServer false 0).serverCloseCalls = 0 := rfl
  have e2 : (runExpressServer false 0).pendingCloseCallbacks = 0 := rfl
  have e3 : (runExpressServer false 0).dbCloseCalls = 0 := rfl
  rw [e1, Nat.zero_add] at h1
  rw [e2, Nat.zero_add] at h2
  rw [e3] at h3
  have hfc : ∀ t : ProcSt,
      (fireCloseEvent ce so t).dbCloseCalls = t.dbCloseCalls + t.pendingCloseCallbacks := by
    intro t
    by_cases hp : t.pendingCloseCallbacks = 0
    · simp [fireCloseEvent, hp]
    · simp [fireCloseEvent, hp]
  refine ⟨h1, h2, ?_⟩
  rw [hfc, h2, h3, Nat.zero_add]

/-- C2, counterexample: in a shutdown run where the listener close
succeeds but the store close fails, the `await __db.close()` throws before
`process.exit` is reached, so the process does not exit with code 1 (it
does not exit through this path at all) — refuting "a store-close error
does not block exit but forces exit code 1". -/
theorem c2_store_close_error_counterexample :
    (run (runExpressServer false 0)
        [PEvent.sigterm, PEvent.closeCompleted false false]).dbCloseCalls = 1
    ∧ (run (runExpressServer false 0)
        [PEvent.sigterm, PEvent.closeCompleted false false]).exitedWith = none
    ∧ (run (runExpressServer false 0)
        [PEvent.sigterm, PEvent.closeCompleted false false]).exitedWith ≠ some 1 := by
  decide

/-- C2, amended: the exit code reflects only the listener close: when the
store close completes without throwing, the process exits with code 1 if
the listener close reported an error and 0 otherwise; when the store close
throws, `process.exit` is never invoked, although the store close was
attempted exactly once. -/
theorem c2_exit_code_amended (ce : Bool) :
    (run (runExpressServer false 0)
        [PEvent.sigterm, PEvent.closeCompleted ce true]).exitedWith
      = some (if ce then 1 else 0)
    ∧ (run (runExpressServer false 0)
        [PEvent.sigterm, PEvent.closeCompleted ce false]).exitedWith = none
    ∧ (run (runExpressServer false 0)
        [PEvent.sigterm, PEvent.closeCompleted ce true]).dbCloseCalls = 1
    ∧ (run (runExpressServer false 0)
        [PEvent.sigterm, PEvent.closeCompleted ce false]).dbCloseCalls = 1 := by
  cases ce <;> decide

/-- C4: for every configured worker count, if the process is the original
(master) and the count is positive, the fork loop creates exactly that
many children and the master does not bind a listener; if the count is
zero or the process is a forked child, no children are created and the
current process binds the listener. -/
theorem c4_worker_topology (isMaster : Bool) (n : Nat) :
    (isMaster = true → 0 < n →
      (runExpressServer isMaster n).forkedChildren = n
      ∧ (runExpressServer isMaster n).serverBound = false)
    ∧ ((isMaster = false ∨ n = 0) →
      (runExpressServer isMaster n).forkedChildren = 0
      ∧ (runExpressServer isMaster n).serverBound = true) := by
  constructor
  · rintro rfl hn
    simp [runExpressServer, hn]
  · rintro (rfl | rfl) <;> simp [runExpressServer]

/-- C4, witness: a master with 3 configured workers forks 3 children and
binds no listener; a forked child with count 5 forks nothing and binds. -/
theorem c4_worker_topology_witness :
    ((runExpressServer true 3).forkedChildren = 3
      ∧ (runExpressServer true 3).serverBound = false)
    ∧ ((runExpressServer false 5).forkedChildren = 0
      ∧ (runExpressServer false 5).serverBound = true) :=
  ⟨(c4_worker_topology true 3).1 rfl (by decide),
   (c4_worker_topology false 5).2 (Or.inl rfl)⟩

/-- C5: whenever `__db.init()` fails, `startServer` exits the process with
code 1 (the `.catch` branch) without retrying, and never reaches
`runExpressServer`, hence never binds a listener. -/
theorem c5_store_init_failure (e : String) (isMaster : Bool) (n : Nat) :
    startServer (Except.error e) isMaster n = StartOutcome.exited 1
    ∧ ∀ s : ProcSt, startServer (Except.error e) isMaster n ≠ StartOutcome.serving s := by
  refine ⟨rfl, fun s h => ?_⟩
  exact StartOutcome.noConfusion h

/-- C5, witness: a concrete failing store initialization exits with 1. -/
theorem c5_store_init_failure_witness :
    startServer (Except.error "connect failed") true 2 = StartOutcome.exited 1 :=
  (c5_store_init_failure "connect failed" true 2).1

/-- C10: when the process is the master and the worker count is positive,
`runExpressServer` skips the listener-binding branch yet still registers
the SIGINT/SIGTERM handlers; delivering a termination signal then calls
`close` on the undefined `vm.app.server`, which faults instead of running
the drain-then-store-close-then-exit sequence: no `server.close`, no
`__db.close()`, no `process.exit`. -/
theorem c10_master_signal_fault (n : Nat) (hn : 0 < n) :
    (runExpressServer true n).sigHandlersRegistered = true
    ∧ (runExpressServer true n).serverBound = false
    ∧ (step (runExpressServer true n) PEvent.sigint).faulted = true
    ∧ (step (runExpressServer true n) PEvent.sigterm).faulted = true
    ∧ (step (runExpressServer true n) PEvent.sigint).serverCloseCalls = 0
    ∧ (step (runExpressServer true n) PEvent.sigint).dbCloseCalls = 0
    ∧ (step (runExpressServer true n) PEvent.sigint).exitedWith = none := by
  simp [runExpressServer, step, stopGraceFully, hn]

/-- A passing non-route middleware is transparent to dispatch. -/
theorem dispatch_mw_pass (f : Request → StageResult) (hs : List Handler) (req : Request)
    (hf : f req = StageResult.next) :
    dispatch (mkMw f :: hs) none req = dispatch hs none req := by
  simp [dispatch, mkMw, hf]

/-- An error-handling middleware is skipped when no error is active. -/
theorem dispatch_errorH_skip (f : JsError → Request → StageResult) (hs : List Handler)
    (req : Request) :
    dispatch (Handler.mk false (HandlerFun.errorH f) :: hs) none req
      = dispatch hs none req := rfl

/-- A list of passing non-route middleware is transparent to dispatch. -/
theorem dispatch_mwList_pass (gs : List (Request → StageResult)) (hs : List Handler)
    (req : Request) (hg : ∀ g ∈ gs, g req = StageResult.next) :
    dispatch (gs.map mkMw ++ hs) none req = dispatch hs none req := by
  induction gs with
  | nil => simp
  | cons g gs ih =>
    rw [List.map_cons, List.cons_append,
      dispatch_mw_pass g _ req (hg g (List.mem_cons_self g gs))]
    exact ih (fun g' hg' => hg g' (List.mem_cons_of_mem _ hg'))

/-- A list of passing business routes is transparent to the writes but
counts one executed route per entry. -/
theorem dispatch_routeList_pass (gs : List (Request → StageResult)) (hs : List Handler)
    (req : Request) (hg : ∀ g ∈ gs, g req = StageResult.next) :
    dispatch (gs.map mkRoute ++ hs) none req
      = ((dispatch hs none req).1, gs.length + (dispatch hs none req).2) := by
  induction gs with
  | nil => simp
  | cons g gs ih =>
    rw [List.map_cons, List.cons_append]
    have hgr : g req = StageResult.next := hg g (List.mem_cons_self g gs)
    have hone : dispatch (mkRoute g :: (gs.map mkRoute ++ hs)) none req
        = ((dispatch (gs.map mkRoute ++ hs) none req).1,
           1 + (dispatch (gs.map mkRoute ++ hs) none req).2) := by
      simp [dispatch, mkRoute, hgr]
    rw [hone, ih (fun g' h' => hg g' (List.mem_cons_of_mem _ h'))]
    rw [List.length_cons]
    congr 1
    omega

/-- A business route that sends a response ends dispatch with exactly that
response and exactly one executed route. -/
theorem dispatch_route_send (f : Request → StageResult) (hs : List Handler) (req : Request)
    (r : Resp) (hf : f req = StageResult.send r) :
    dispatch (mkRoute f :: hs) none req = ([r], 1) := by
  simp [dispatch, mkRoute, hf]

/-- The fixed middleware registered ahead of the external collaborators is
transparent for a request that is not timed out and has a well-formed
body. -/
theorem dispatch_frontStages (hs : List Handler) (req : Request)
    (hto : req.timedout = false) (hmal : req.malformedJson = false) :
    dispatch (frontStages ++ hs) none req = dispatch hs none req := by
  simp [frontStages, List.cons_append, dispatch, mkMw, helmetStage, haltOnTimedoutStage,
    bodyParserJsonStage, bodyParserUrlencodedStage, corsStage, hto, hmal]

/-- The catch-all stage answers with exactly one `NOT_FOUND` response and
is not a business route. -/
theorem dispatch_notFound (req : Request) :
    dispatch [mkMw notFoundStage] none req = ([notFoundResp], 0) := by
  simp [dispatch, mkMw, notFoundStage]

/-- C6: for a request that is not timed out, has a well-formed body and
passes the auth collaborator, (a) if no registered business route answers
it, dispatch reaches the catch-all registered after the route table and
the caller receives exactly one `NOT_FOUND`-classified response (all
routes having been tried first); (b) if some registered route answers it,
that route's response is the only write — the business route takes
precedence over the catch-all for the same path. -/
theorem c6_not_found_catch_all (auth : List (Request → StageResult)) (req : Request)
    (hto : req.timedout = false) (hmal : req.malformedJson = false)
    (hauth : ∀ g ∈ auth, g req = StageResult.next) :
    (∀ routes : List (Request → StageResult),
      (∀ g ∈ routes, g req = StageResult.next) →
        dispatch (appPipeline auth routes) none req = ([notFoundResp], routes.length))
    ∧ (∀ (gs1 : List (Request → StageResult)) (rt : Request → StageResult)
         (gs2 : List (Request → StageResult)) (r : Resp),
        (∀ g ∈ gs1, g req = StageResult.next) → rt req = StageResult.send r →
          dispatch (appPipeline auth (gs1 ++ rt :: gs2)) none req = ([r], gs1.length + 1)) := by
  constructor
  · intro routes hroutes
    rw [appPipeline, List.append_assoc, List.append_assoc,
      dispatch_frontStages _ req hto hmal,
      dispatch_mwList_pass auth _ req hauth,
      dispatch_routeList_pass routes _ req hroutes,
      dispatch_notFound req]
    simp
  · intro gs1 rt gs2 r hgs1 hrt
    rw [appPipeline, List.append_assoc, List.append_assoc,
      dispatch_frontStages _ req hto hmal,
      dispatch_mwList_pass auth _ req hauth,
      List.map_append, List.map_cons, List.append_assoc, List.cons_append,
      dispatch_routeList_pass gs1 _ req hgs1,
      dispatch_route_send rt _ req r hrt]

/-- C6, witness: with one registered route that only matches another
path, an unmatched request gets exactly the `NOT_FOUND` response after
the route was tried. -/
theorem c6_not_found_catch_all_witness :
    dispatch
      (appPipeline []
        [fun q => if q.path == "/api/x"
                  then StageResult.send ⟨RespType.BUSINESS 1, "hit"⟩
                  else StageResult.next])
      none ⟨false, false, "/nope"⟩ = ([notFoundResp], 1) := by
  have h := (c6_not_found_catch_all [] ⟨false, false, "/nope"⟩ rfl rfl
      (fun g hg => absurd hg (List.not_mem_nil g))).1
    [fun q => if q.path == "/api/x"
              then StageResult.send ⟨RespType.BUSINESS 1, "hit"⟩
              else StageResult.next]
    (by
      intro g hg
      rw [List.mem_singleton] at hg
      subst hg
      decide)
  simpa using h

/-- C7: a request with a malformed JSON body (and not timed out) is
answered with exactly one `INVALID_REQUEST`-classified response by the
syntax-error middleware registered before the route table: the body
parser raises, the error skips every later normal handler until the
error-handling middleware, and zero business routes execute — for every
auth collaborator and every route table. -/
theorem c7_invalid_json_before_routes (auth routes : List (Request → StageResult))
    (req : Request) (hto : req.timedout = false) (hmal : req.malformedJson = true) :
    dispatch (appPipeline auth routes) none req = ([invalidRequestResp], 0) := by
  simp [appPipeline, frontStages, List.cons_append, dispatch, mkMw, helmetStage,
    haltOnTimedoutStage, bodyParserJsonStage, bodyParserUrlencodedStage,
    jsonSyntaxErrorStage, corsStage, hto, hmal]

/-- C7, witness: a malformed-body request is answered `INVALID_REQUEST`
with zero routes executed even when a route would match everything. -/
theorem c7_invalid_json_before_routes_witness :
    dispatch
      (appPipeline [] [fun _ => StageResult.send ⟨RespType.BUSINESS 7, "hit"⟩])
      none ⟨false, true, "/any"⟩ = ([invalidRequestResp], 0) :=
  c7_invalid_json_before_routes [] [fun _ => StageResult.send ⟨RespType.BUSINESS 7, "hit"⟩]
    ⟨false, true, "/any"⟩ rfl rfl

/-- The `SERVER_TIMEOUT` writes of the timeout listener: one per timeout
event fired, given that the downstream handler's own writes are not
`SERVER_TIMEOUT`-classified. -/
theorem countServerTimeout_listener (events : List ReqEvent)
    (h : events.countP isStHandlerWrite = 0) :
    countServerTimeout (timeoutListenerWrites events) = countTimeoutEvents events := by
  induction events with
  | nil => rfl
  | cons e es ih =>
    rw [List.countP_cons] at h
    cases hst : isStHandlerWrite e with
    | true =>
      rw [hst] at h
      simp at h
    | false =>
      rw [hst] at h
      simp only [Bool.false_eq_true, if_false, Nat.add_zero] at h
      have ihes := ih h
      rw [countServerTimeout, countTimeoutEvents] at ihes
      cases e with
      | timeoutFired t =>
        show countServerTimeout (serverTimeoutEventResp t :: timeoutListenerWrites es)
          = countTimeoutEvents (ReqEvent.timeoutFired t :: es)
        rw [countServerTimeout, List.countP_cons, countTimeoutEvents, List.countP_cons]
        simp [serverTimeoutEventResp, ihes]
      | handlerWrite r =>
        have hrt : (r.rtype == RespType.SERVER_TIMEOUT) = false := by
          simpa [isStHandlerWrite] using hst
        show countServerTimeout (r :: timeoutListenerWrites es)
          = countTimeoutEvents (ReqEvent.handlerWrite r :: es)
        rw [countServerTimeout, List.countP_cons, countTimeoutEvents, List.countP_cons]
        simp [hrt, ihes]

/-- C3, counterexample: on a request that produced no response by the
deadline (the timeout event fires, so the listener writes its synthetic
`SERVER_TIMEOUT` response), a late write by the original handler still
reaches the same request context afterwards — refuting "exactly one
`SERVER_TIMEOUT`-classified synthetic response ... and no subsequent write
occurs on that request context". -/
theorem c3_timeout_write_counterexample :
    timeoutMiddlewareWrites false
        [ReqEvent.timeoutFired 30000, ReqEvent.handlerWrite ⟨RespType.BUSINESS 0, "late"⟩]
      = [serverTimeoutEventResp 30000, ⟨RespType.BUSINESS 0, "late"⟩]
    ∧ timeoutMiddlewareWrites false
        [ReqEvent.timeoutFired 30000, ReqEvent.handlerWrite ⟨RespType.BUSINESS 0, "late"⟩]
      ≠ [serverTimeoutEventResp 30000] := by
  constructor
  · rfl
  · decide

/-- C3, amended: the middleware writes one synthetic `SERVER_TIMEOUT`
response (with a human-readable message) per timeout event fired, plus one
more if the request is already marked timed out at entry (in which case
the rest of the pipeline is not invoked); it does not suppress subsequent
writes: the full write trace is the entry response followed by every
listener and downstream write. -/
theorem c3_timeout_writes_amended (entry : Bool) (events : List ReqEvent)
    (h : events.countP isStHandlerWrite = 0) :
    timeoutMiddlewareWrites entry events
      = (if entry then [serverTimeoutEntryResp] else []) ++ timeoutListenerWrites events
    ∧ countServerTimeout (timeoutMiddlewareWrites entry events)
      = (if entry then 1 else 0) + countTimeoutEvents events := by
  have hcount := countServerTimeout_listener events h
  cases entry with
  | false =>
    refine ⟨by simp [timeoutMiddlewareWrites], ?_⟩
    simpa [timeoutMiddlewareWrites] using hcount
  | true =>
    refine ⟨by simp [timeoutMiddlewareWrites], ?_⟩
    have hw : timeoutMiddlewareWrites true events
        = serverTimeoutEntryResp :: timeoutListenerWrites events := by
      simp [timeoutMiddlewareWrites]
    rw [hw, countServerTimeout, List.countP_cons]
    rw [countServerTimeout] at hcount
    simp [serverTimeoutEntryResp, hcount, Nat.add_comm]

/-- C3, witness for the amended statement: a request timed out at entry
with one later timeout event receives the entry response plus one listener
response — two `SERVER_TIMEOUT` writes in total. -/
theorem c3_timeout_writes_amended_witness :
    ([ReqEvent.timeoutFired 5] : List ReqEvent).countP isStHandlerWrite = 0
    ∧ (timeoutMiddlewareWrites true [ReqEvent.timeoutFired 5]
        = (if true then [serverTimeoutEntryResp] else [])
            ++ timeoutListenerWrites [ReqEvent.timeoutFired 5]
      ∧ countServerTimeout (timeoutMiddlewareWrites true [ReqEvent.timeoutFired 5])
        = (if true then 1 else 0) + countTimeoutEvents [ReqEvent.timeoutFired 5]) :=
  ⟨by decide, c3_timeout_writes_amended true [ReqEvent.timeoutFired 5] (by decide)⟩

/-- C9: any sequence of uncaught faults delivered to a live process is
logged by the `uncaughtException` handler (one log entry per fault) and
triggers no shutdown: the process never exits, never calls
`server.close`, never touches the store, and keeps its listener. -/
theorem c9_uncaught_no_shutdown (es : List PEvent) (s : ProcSt)
    (h : ∀ e ∈ es, e = PEvent.uncaught) (hx : s.exitedWith = none) :
    (run s es).exitedWith = none
    ∧ (run s es).serverCloseCalls = s.serverCloseCalls
    ∧ (run s es).dbCloseCalls = s.dbCloseCalls
    ∧ (run s es).pendingCloseCallbacks = s.pendingCloseCallbacks
    ∧ (run s es).serverBound = s.serverBound
    ∧ (run s es).crashLogs = s.crashLogs + es.length := by
  induction es generalizing s with
  | nil =>
    simp [run, hx]
  | cons e es ih =>
    have he : e = PEvent.uncaught := h e (List.mem_cons_self e es)
    subst he
    have hstep : step s PEvent.uncaught = onUncaughtException s := by
      simp [step, hx]
    rw [run_cons, hstep]
    obtain ⟨h1, h2, h3, h4, h5, h6⟩ :=
      ih (onUncaughtException s)
        (fun e' he' => h e' (List.mem_cons_of_mem _ he'))
        (by simp [onUncaughtException, hx])
    simp only [onUncaughtException] at h1 h2 h3 h4 h5 h6 ⊢
    refine ⟨h1, h2, h3, h4, h5, ?_⟩
    rw [h6, List.length_cons]
    omega

/-- C9, witness: two uncaught handler faults in a running worker are both
logged and the worker keeps serving without any shutdown step. -/
theorem c9_uncaught_no_shutdown_witness :
    (run (runExpressServer false 0) [PEvent.uncaught, PEvent.uncaught]).exitedWith = none
    ∧ (run (runExpressServer false 0)
        [PEvent.uncaught, PEvent.uncaught]).serverCloseCalls
        = (runExpressServer false 0).serverCloseCalls
    ∧ (run (runExpressServer false 0) [PEvent.uncaught, PEvent.uncaught]).dbCloseCalls
        = (runExpressServer false 0).dbCloseCalls
    ∧ (run (runExpressServer false 0)
        [PEvent.uncaught, PEvent.uncaught]).pendingCloseCallbacks
        = (runExpressServer false 0).pendingCloseCallbacks
    ∧ (run (runExpressServer false 0) [PEvent.uncaught, PEvent.uncaught]).serverBound
        = (runExpressServer false 0).serverBound
    ∧ (run (runExpressServer false 0) [PEvent.uncaught, PEvent.uncaught]).crashLogs
        = (runExpressServer false 0).crashLogs
            + ([PEvent.uncaught, PEvent.uncaught] : List PEvent).length :=
  c9_uncaught_no_shutdown [PEvent.uncaught, PEvent.uncaught] (runExpressServer false 0)
    (by decide) rfl

/-- Folding probe ticks counts one attempt per tick. -/
theorem probeLoop_foldl_attempts (fails : Nat → Bool) :
    ∀ (ts : List Nat) (s : ProbeSt),
      (ts.foldl (fun s' t => probeTick (fails t) s') s).attempts = s.attempts + ts.length := by
  intro ts
  induction ts with
  | nil => intro s; simp
  | cons t ts ih =>
    intro s
    rw [List.foldl_cons, ih]
    simp [probeTick]
    omega

/-- Folding probe ticks logs one failure per failing tick and nothing
else. -/
theorem probeLoop_foldl_failures (fails : Nat → Bool) :
    ∀ (ts : List Nat) (s : ProbeSt),
      (ts.foldl (fun s' t => probeTick (fails t) s') s).failuresLogged
        = s.failuresLogged + ts.countP fails := by
  intro ts
  induction ts with
  | nil => intro s; simp
  | cons t ts ih =>
    intro s
    rw [List.foldl_cons, ih, List.countP_cons]
    cases hf : fails t
    · simp [probeTick, hf]
    · simp [probeTick, hf]
      omega

/-- C8: for any positive interval, the probe loop performs exactly
`window / interval` attempts, which is at most
`⌈window / interval⌉ = (window + interval - 1) / interval`; every attempt
happens at a time within the window (none after expiry); the number of
attempts does not depend on which probes fail; and each failing probe is
logged without stopping the loop. -/
theorem c8_probe_window_bound (interval window : Nat) (hi : 0 < interval)
    (fails fails2 : Nat → Bool) :
    (runProbeLoop interval window fails).attempts = window / interval
    ∧ window / interval ≤ (window + interval - 1) / interval
    ∧ (∀ t ∈ probeTimes interval window, t ≤ window)
    ∧ (runProbeLoop interval window fails).attempts
        = (runProbeLoop interval window fails2).attempts
    ∧ (runProbeLoop interval window fails).failuresLogged
        = (probeTimes interval window).countP fails := by
  have hlen : (probeTimes interval window).length = window / interval := by
    simp [probeTimes]
  have hatt : ∀ g : Nat → Bool, (runProbeLoop interval window g).attempts = window / interval := by
    intro g
    have h := probeLoop_foldl_attempts g (probeTimes interval window) ⟨0, 0⟩
    rw [runProbeLoop, h, hlen]
    simp
  refine ⟨hatt fails, ?_, ?_, by rw [hatt, hatt], ?_⟩
  · exact Nat.div_le_div_right (by omega)
  · intro t ht
    simp only [probeTimes, List.mem_map, List.mem_range] at ht
    obtain ⟨k, hk, rfl⟩ := ht
    calc (k + 1) * interval ≤ (window / interval) * interval :=
          Nat.mul_le_mul_right interval hk
      _ ≤ window := Nat.div_mul_le_self window interval
  · have h := probeLoop_foldl_failures fails (probeTimes interval window) ⟨0, 0⟩
    rw [runProbeLoop, h]
    simp

/-- C8, witness: with the source constants (10-second interval, 5-minute
window) and a probe-failure pattern that fails once, the loop performs
exactly 30 attempts, bounded by the ceiling, all within the window. -/
theorem c8_probe_window_bound_witness :
    0 < POLL_INTERVAL
    ∧ ((runProbeLoop POLL_INTERVAL pollingDuration (fun t => t == 50000)).attempts
          = pollingDuration / POLL_INTERVAL
       ∧ pollingDuration / POLL_INTERVAL
          ≤ (pollingDuration + POLL_INTERVAL - 1) / POLL_INTERVAL
       ∧ (∀ t ∈ probeTimes POLL_INTERVAL pollingDuration, t ≤ pollingDuration)
       ∧ (runProbeLoop POLL_INTERVAL pollingDuration (fun t => t == 50000)).attempts
          = (runProbeLoop POLL_INTERVAL pollingDuration (fun _ => false)).attempts
       ∧ (runProbeLoop POLL_INTERVAL pollingDuration (fun t => t == 50000)).failuresLogged
          = (probeTimes POLL_INTERVAL pollingDuration).countP (fun t => t == 50000)) :=
  ⟨by decide,
   c8_probe_window_bound POLL_INTERVAL pollingDuration (by decide)
     (fun t => t == 50000) (fun _ => false)⟩

/-- C10, witness: the fault is realized at worker count 4. -/
theorem c10_master_signal_fault_witness :
    (runExpressServer true 4).sigHandlersRegistered = true
    ∧ (runExpressServer true 4).serverBound = false
    ∧ (step (runExpressServer true 4) PEvent.sigint).faulted = true
    ∧ (step (runExpressServer true 4) PEvent.sigterm).faulted = true
    ∧ (step (runExpressServer true 4) PEvent.sigint).serverCloseCalls = 0
    ∧ (step (runExpressServer true 4) PEvent.sigint).dbCloseCalls = 0
    ∧ (step (runExpressServer true 4) PEvent.sigint).exitedWith = none :=
  c10_master_signal_fault 4 (by decide)

end App
